import Mathlib

/-!
Shallow embedding of the image-handler orchestration layer
(source file index.js of the image-handler).

The handler is an async JS function whose only effects are calls to four
external collaborators (secret store, request parser, image processor,
object storage) and one module-global variable, the cached secret key.
We embed it as a pure function parameterised by the outcomes of those
collaborator calls, with the module-global cache threaded explicitly as
an Option String value. A thrown JS error that escapes the handler is
the Except.error case of the result; a returned HTTP response is the
Except.ok case.
-/

set_option maxHeartbeats 1000000

/-- Header values as they occur in the JS response object: strings, the
boolean true stored under Access-Control-Allow-Credentials, or the JS
undefined value (assigning an absent env var or request field stores the
key with value undefined). -/
inductive HVal where
  | str (s : String)
  | bool (b : Bool)
  | undef
deriving DecidableEq, Repr

/-- A JS object used as a header mapping: an insertion-ordered association
list with unique keys maintained by setH. -/
abbrev HeaderMap := List (String × HVal)

/-- Property assignment on a JS object: overwrite the value in place when
the key exists, otherwise append the new key at the end. -/
def setH : HeaderMap → String → HVal → HeaderMap
  | [], k, v => [(k, v)]
  | (k0, v0) :: rest, k, v =>
      if k0 == k then (k0, v) :: rest else (k0, v0) :: setH rest k v

/-- Property lookup on a JS object header mapping. -/
def getH : HeaderMap → String → Option HVal
  | [], _ => none
  | (k0, v0) :: rest, k => if k0 == k then some v0 else getH rest k


/-- Conversion of an optional string (a possibly absent env var or request
field) to the JS value actually stored: the string, or undefined. -/
def optHVal : Option String → HVal
  | some s => HVal.str s
  | none => HVal.undef

/-- JS truthiness of a string-or-undefined value: undefined and the empty
string are falsy, every other string is truthy. -/
def truthyStr : Option String → Bool
  | some s => !(s == "")
  | none => false

/-- JS truthiness of a numeric-or-undefined value such as err.status:
undefined and 0 are falsy. -/
def jsTruthyNat : Option Nat → Bool
  | some s => !(s == 0)
  | none => false

/-- Whitespace class of the JS regex \s, restricted to its ASCII members
(the only ones relevant to configuration strings). -/
def jsWs (c : Char) : Bool :=
  c == ' ' || c == '\t' || c == '\n' || c == '\r' || c == '\x0b' || c == '\x0c'

/-- The JS expression s.replace(/\s/, ''): the regex has no g flag, so
only the FIRST whitespace character of s is removed. -/
def replaceFirstWs : List Char → List Char
  | [] => []
  | c :: rest => if jsWs c then rest else c :: replaceFirstWs rest

/-- String form of replaceFirstWs. -/
def replaceFirstWsStr (s : String) : String :=
  String.mk (replaceFirstWs s.data)

/-- The environment variables the handler reads. Each is a string or
absent, exactly as process.env exposes them. -/
structure Env where
  ENABLE_SIGNATURE : Option String
  PS_PARAMETER_NAME : Option String
  ENABLE_DEFAULT_FALLBACK_IMAGE : Option String
  DEFAULT_FALLBACK_IMAGE_BUCKET : Option String
  DEFAULT_FALLBACK_IMAGE_KEY : Option String
  CORS_ENABLED : Option String
  CORS_ORIGIN : Option String
deriving DecidableEq, Repr

/-- The part of the inbound event the handler inspects: the optional
requestContext object and whether it has an elb property. -/
structure RequestContext where
  hasElb : Bool
deriving DecidableEq, Repr

/-- Inbound event, reduced to the fields the orchestration layer reads. -/
structure Event where
  requestContext : Option RequestContext
deriving DecidableEq, Repr

/-- The isAlb test: event.requestContext andand
event.requestContext.hasOwnProperty(elb), coerced to a boolean. -/
def eventIsAlb (e : Event) : Bool :=
  match e.requestContext with
  | some rc => rc.hasElb
  | none => false

/-- A thrown JS error as the orchestration layer observes it: its optional
numeric status property, and its JSON.stringify serialization, carried
abstractly since stringification of arbitrary thrown values happens in the
JS runtime, outside this repository. -/
structure JsError where
  status : Option Nat
  serialized : String
deriving DecidableEq, Repr

/-- Processed Request produced by the external parser: the four metadata
fields the handler copies into headers, and the optional custom header
object it overlays last. -/
structure ProcessedRequest where
  ContentType : Option String
  Expires : Option String
  LastModified : Option String
  CacheControl : Option String
  headers : Option (List (String × HVal))
deriving DecidableEq, Repr

/-- Result of s3.getObject for the fallback image: content type, last
modified, and the object body as bytes. -/
structure S3Obj where
  ContentType : Option String
  LastModified : Option String
  Body : List Nat
deriving DecidableEq, Repr

/-- Outcome of each external collaborator call during one invocation:
secret-store getParameter, parser setup, processor process, and the
s3.getObject of the fallback image. Each either yields a value or throws. -/
structure Outcomes where
  secretFetch : Except JsError String
  setup : Except JsError ProcessedRequest
  process : Except JsError String
  fallbackFetch : Except JsError S3Obj

/-- The HTTP response shape the handler returns. -/
structure Response where
  statusCode : Nat
  isBase64Encoded : Bool
  headers : HeaderMap
  body : String
deriving DecidableEq, Repr

/-- The base64 alphabet. -/
def base64Chars : List Char :=
  [ 'A', 'B', 'C', 'D', 'E', 'F', 'G', 'H', 'I', 'J', 'K', 'L', 'M',
    'N', 'O', 'P', 'Q', 'R', 'S', 'T', 'U', 'V', 'W', 'X', 'Y', 'Z',
    'a', 'b', 'c', 'd', 'e', 'f', 'g', 'h', 'i', 'j', 'k', 'l', 'm',
    'n', 'o', 'p', 'q', 'r', 's', 't', 'u', 'v', 'w', 'x', 'y', 'z',
    '0', '1', '2', '3', '4', '5', '6', '7', '8', '9', '+', '/' ]

/-- One base64 output character. -/
def b64c (n : Nat) : Char :=
  base64Chars.getD n 'A'

/-- Standard base64 of a byte list, as Buffer.toString(base64) produces. -/
def base64Encode : List Nat → String
  | [] => ""
  | [a] =>
      String.mk [ b64c (a / 4), b64c (a % 4 * 16), '=', '=' ]
  | [a, b] =>
      String.mk [ b64c (a / 4), b64c (a % 4 * 16 + b / 16), b64c (b % 16 * 4), '=' ]
  | a :: b :: c :: rest =>
      String.mk [ b64c (a / 4), b64c (a % 4 * 16 + b / 16),
                  b64c (b % 16 * 4 + c / 64), b64c (c % 64) ]
        ++ base64Encode rest

/-- The getResponseHeaders function: builds the base header object, adds
Access-Control-Allow-Credentials unless the request came through an ALB,
adds the CORS origin when CORS_ENABLED is the string Yes, and forces
Content-Type application/json for error responses. -/
def getResponseHeaders (isErr isAlb : Bool) (env : Env) : HeaderMap :=
  let headers : HeaderMap :=
    [ ("Access-Control-Allow-Methods", HVal.str "GET"),
      ("Access-Control-Allow-Headers", HVal.str "Content-Type, Authorization") ]
  let headers :=
    if !isAlb then setH headers "Access-Control-Allow-Credentials" (HVal.bool true)
    else headers
  let headers :=
    if env.CORS_ENABLED == some "Yes" then
      setH headers "Access-Control-Allow-Origin" (optHVal env.CORS_ORIGIN)
    else headers
  if isErr then setH headers "Content-Type" (HVal.str "application/json")
  else headers

/-- The ensureSecretKeyLoaded function: returns at once when the cached
secret is truthy, is a no-op when ENABLE_SIGNATURE is not Yes, and
otherwise consults the secret-store fetch outcome, storing the value or
rethrowing the error (leaving the cache as it was). -/
def ensureSecretKeyLoaded (env : Env) (cache : Option String)
    (fetch : Except JsError String) : Except JsError (Option String) :=
  if truthyStr cache then Except.ok cache
  else if !(env.ENABLE_SIGNATURE == some "Yes") then Except.ok cache
  else
    match fetch with
    | Except.ok v => Except.ok (some v)
    | Except.error e => Except.error e

/-- The fallback-image guard of the catch block:
ENABLE_DEFAULT_FALLBACK_IMAGE is the string Yes, the bucket env var is
truthy and still nonempty after removing its first whitespace character,
and likewise the key env var. -/
def fallbackConfigured (env : Env) : Bool :=
  (env.ENABLE_DEFAULT_FALLBACK_IMAGE == some "Yes")
  && (match env.DEFAULT_FALLBACK_IMAGE_BUCKET with
      | some b => !(b == "") && !(replaceFirstWsStr b == "")
      | none => false)
  && (match env.DEFAULT_FALLBACK_IMAGE_KEY with
      | some k => !(k == "") && !(replaceFirstWsStr k == "")
      | none => false)

/-- The try block: parser setup, then processor process; the first thrown
error aborts the block. -/
def tryResult (out : Outcomes) : Except JsError (ProcessedRequest × String) :=
  match out.setup with
  | Except.error e => Except.error e
  | Except.ok req =>
      match out.process with
      | Except.error e => Except.error e
      | Except.ok body => Except.ok (req, body)

/-- The metadata overlay of the success branch: Content-Type, Expires,
Last-Modified, Cache-Control copied from the Processed Request onto the
composed headers, in source order. -/
def metaOverlay (req : ProcessedRequest) (h : HeaderMap) : HeaderMap :=
  setH (setH (setH (setH h "Content-Type" (optHVal req.ContentType))
    "Expires" (optHVal req.Expires))
    "Last-Modified" (optHVal req.LastModified))
    "Cache-Control" (optHVal req.CacheControl)

/-- The custom-header overlay of the success branch: when the Processed
Request carries a headers object, each of its entries is assigned last,
overwriting any prior value. -/
def customOverlay (req : ProcessedRequest) (h : HeaderMap) : HeaderMap :=
  match req.headers with
  | some hs => hs.foldl (fun m kv => setH m kv.1 kv.2) h
  | none => h

/-- The keys of the custom-header object of a Processed Request. -/
def customKeys (req : ProcessedRequest) : List String :=
  match req.headers with
  | some hs => hs.map Prod.fst
  | none => []

/-- The success response: status 200, base64 body from the processor, and
composed headers overlaid by metadata then by custom headers. -/
def successResponse (env : Env) (isAlb : Bool) (req : ProcessedRequest)
    (body : String) : Response :=
  { statusCode := 200, isBase64Encoded := true,
    headers := customOverlay req (metaOverlay req (getResponseHeaders false isAlb env)),
    body := body }

/-- The fixed internal-error body, JSON.stringify of the literal object in
the source. -/
def internalErrorBody : String :=
  "\x7b\"message\":\"Internal error. Please contact the system administrator.\",\"code\":\"InternalError\",\"status\":500\x7d"

/-- The unclassified terminal error response: fixed status 500 and fixed
JSON body, with error-mode headers. -/
def internalErrorResponse (env : Env) (isAlb : Bool) : Response :=
  { statusCode := 500, isBase64Encoded := false,
    headers := getResponseHeaders true isAlb env, body := internalErrorBody }

/-- The terminal error branch: when err.status is truthy, echo that status
and the stringified error; otherwise the fixed internal-error response. -/
def errorBranchResponse (env : Env) (isAlb : Bool) (err : JsError) : Response :=
  if jsTruthyNat err.status then
    { statusCode := err.status.getD 500, isBase64Encoded := false,
      headers := getResponseHeaders true isAlb env, body := err.serialized }
  else internalErrorResponse env isAlb

/-- The fallback-image response: original status when truthy else 500,
base64 body of the fetched object, non-error composed headers with
Content-Type and Last-Modified from the object and Cache-Control forced. -/
def fallbackImageResponse (env : Env) (isAlb : Bool) (err : JsError)
    (obj : S3Obj) : Response :=
  let h := getResponseHeaders false isAlb env
  let h := setH h "Content-Type" (optHVal obj.ContentType)
  let h := setH h "Last-Modified" (optHVal obj.LastModified)
  let h := setH h "Cache-Control" (HVal.str "max-age=31536000,public")
  { statusCode := if jsTruthyNat err.status then err.status.getD 500 else 500,
    isBase64Encoded := true, headers := h, body := base64Encode obj.Body }

/-- The try/catch body of the handler after the secret load: success path,
or catch with optional fallback fetch, or terminal error branch. The
fallback fetch outcome is consulted only inside the configured guard, and
a failing fallback fetch is swallowed. -/
def handlerBody (env : Env) (ev : Event) (out : Outcomes) : Response :=
  let isAlb := eventIsAlb ev
  match tryResult out with
  | Except.ok (req, body) => successResponse env isAlb req body
  | Except.error err =>
      if fallbackConfigured env then
        match out.fallbackFetch with
        | Except.ok obj => fallbackImageResponse env isAlb err obj
        | Except.error _ => errorBranchResponse env isAlb err
      else errorBranchResponse env isAlb err

/-- The exported handler: awaits ensureSecretKeyLoaded OUTSIDE the
try/catch, so a secret-load error propagates out of the handler; otherwise
it runs the try/catch body and returns its response together with the new
value of the module-global secret cache. -/
def handler (env : Env) (ev : Event) (cache : Option String)
    (out : Outcomes) : Except JsError (Response × Option String) :=
  match ensureSecretKeyLoaded env cache out.secretFetch with
  | Except.error e => Except.error e
  | Except.ok c => Except.ok (handlerBody env ev out, c)

/-- One Lambda invocation at the process level: the module-global cache is
updated only when the handler assigned it; an escaping error leaves the
global as it was. -/
def invokeStep (env : Env) (cache : Option String) (inv : Event × Outcomes) :
    Except JsError Response × Option String :=
  match handler env inv.1 cache inv.2 with
  | Except.ok (r, c) => (Except.ok r, c)
  | Except.error e => (Except.error e, cache)

/-- The secret cache after a sequence of invocations in one process. -/
def runCache (env : Env) (cache : Option String) :
    List (Event × Outcomes) → Option String
  | [] => cache
  | inv :: rest => runCache env (invokeStep env cache inv).2 rest

def metaVal (req : ProcessedRequest) (k : String) : Option HVal :=
  if k == "Content-Type" then some (optHVal req.ContentType)
  else if k == "Expires" then some (optHVal req.Expires)
  else if k == "Last-Modified" then some (optHVal req.LastModified)
  else if k == "Cache-Control" then some (optHVal req.CacheControl)
  else none

def exceptOk {ε α : Type} : Except ε α → Bool
  | Except.ok _ => true
  | Except.error _ => false

def env0 : Env :=
  { ENABLE_SIGNATURE := none, PS_PARAMETER_NAME := none,
    ENABLE_DEFAULT_FALLBACK_IMAGE := none, DEFAULT_FALLBACK_IMAGE_BUCKET := none,
    DEFAULT_FALLBACK_IMAGE_KEY := none, CORS_ENABLED := none, CORS_ORIGIN := none }

def req0 : ProcessedRequest :=
  { ContentType := none, Expires := none, LastModified := none,
    CacheControl := none, headers := none }

def ev0 : Event := { requestContext := none }

def evAlb : Event := { requestContext := some { hasElb := true } }

def err404 : JsError :=
  { status := some 404, serialized := "\x7b\"status\":404,\"code\":\"NotFound\"\x7d" }

def errNoStatus : JsError := { status := none, serialized := "\x7b\x7d" }

def objFb : S3Obj :=
  { ContentType := some "image/png",
    LastModified := some "Wed, 01 Jan 2020 00:00:00 GMT", Body := [77, 97, 110] }

def outSecretFail : Outcomes :=
  { secretFetch := Except.error errNoStatus, setup := Except.ok req0,
    process := Except.ok "", fallbackFetch := Except.error errNoStatus }

def outFbHit : Outcomes :=
  { secretFetch := Except.ok "", setup := Except.error err404,
    process := Except.ok "", fallbackFetch := Except.ok objFb }

def outFbFail : Outcomes :=
  { secretFetch := Except.ok "", setup := Except.error err404,
    process := Except.ok "", fallbackFetch := Except.error errNoStatus }

def envSig : Env := { env0 with ENABLE_SIGNATURE := some "Yes", PS_PARAMETER_NAME := some "sk" }

def envWsBucket : Env :=
  { env0 with
    ENABLE_DEFAULT_FALLBACK_IMAGE := some "Yes",
    DEFAULT_FALLBACK_IMAGE_BUCKET := some "  ",
    DEFAULT_FALLBACK_IMAGE_KEY := some "default.png" }

def envFbOn : Env :=
  { env0 with
    ENABLE_DEFAULT_FALLBACK_IMAGE := some "Yes",
    DEFAULT_FALLBACK_IMAGE_BUCKET := some "fallback-bucket",
    DEFAULT_FALLBACK_IMAGE_KEY := some "default.png" }

def reqCustomCT : ProcessedRequest :=
  { req0 with
    ContentType := some "baz",
    headers := some [("Content-Type", HVal.str "bar")] }

def reqCredHeader : ProcessedRequest :=
  { req0 with
    headers := some [("Access-Control-Allow-Credentials", HVal.bool true)] }

def outCred : Outcomes :=
  { secretFetch := Except.ok "", setup := Except.ok reqCredHeader,
    process := Except.ok "Zm9v", fallbackFetch := Except.error errNoStatus }

theorem getH_setH_self (m : HeaderMap) (k : String) (v : HVal) :
    getH (setH m k v) k = some v := by
  induction m with
  | nil => simp [setH, getH]
  | cons p rest ih =>
      obtain ⟨k0, v0⟩ := p
      by_cases h : k0 = k
      · subst h; simp [setH, getH]
      · simp [setH, getH, h, ih]

theorem getH_setH_ne (m : HeaderMap) (k j : String) (v : HVal) (h : ¬(k = j)) :
    getH (setH m k v) j = getH m j := by
  induction m with
  | nil => simp [setH, getH, h]
  | cons p rest ih =>
      obtain ⟨k0, v0⟩ := p
      by_cases h0 : k0 = k
      · subst h0; simp [setH, getH, h]
      · simp [setH, getH, h0, ih]

theorem getH_foldl_notmem (hs : List (String × HVal)) (m : HeaderMap) (k : String)
    (h : ∀ p ∈ hs, ¬(p.1 = k)) :
    getH (hs.foldl (fun m kv => setH m kv.1 kv.2) m) k = getH m k := by
  induction hs generalizing m with
  | nil => rfl
  | cons p rest ih =>
      obtain ⟨k0, v0⟩ := p
      have hk0 : ¬(k0 = k) := h (k0, v0) (List.mem_cons_self _ _)
      simp only [List.foldl_cons]
      rw [ih _ (fun q hq => h q (List.mem_cons_of_mem _ hq))]
      exact getH_setH_ne m k0 k v0 hk0

theorem getH_foldl_mem (hs : List (String × HVal)) (m : HeaderMap) (k : String) (v : HVal)
    (hnd : (hs.map Prod.fst).Nodup) (hmem : (k, v) ∈ hs) :
    getH (hs.foldl (fun m kv => setH m kv.1 kv.2) m) k = some v := by
  induction hs generalizing m with
  | nil => cases hmem
  | cons p rest ih =>
      obtain ⟨k0, v0⟩ := p
      simp only [List.map_cons, List.nodup_cons] at hnd
      simp only [List.foldl_cons]
      rcases List.mem_cons.mp hmem with heq | htail
      · injection heq with hk hv
        subst hk; subst hv
        rw [getH_foldl_notmem rest _ k ?notk, getH_setH_self]
        case notk =>
          intro q hq hqk
          exact hnd.1 (hqk ▸ List.mem_map_of_mem Prod.fst hq)
      · exact ih _ hnd.2 htail

theorem getRespH_cred (isErr isAlb : Bool) (env : Env) :
    getH (getResponseHeaders isErr isAlb env) "Access-Control-Allow-Credentials" =
      if isAlb then none else some (HVal.bool true) := by
  cases isErr <;> cases isAlb <;>
    by_cases hc : (env.CORS_ENABLED == some "Yes") = true <;>
    simp [getResponseHeaders, hc, setH, getH]

theorem getRespH_origin (isErr isAlb : Bool) (env : Env) :
    getH (getResponseHeaders isErr isAlb env) "Access-Control-Allow-Origin" =
      if env.CORS_ENABLED == some "Yes" then some (optHVal env.CORS_ORIGIN) else none := by
  cases isErr <;> cases isAlb <;>
    by_cases hc : (env.CORS_ENABLED == some "Yes") = true <;>
    simp [getResponseHeaders, hc, setH, getH]

theorem getRespH_ctype (isErr isAlb : Bool) (env : Env) :
    getH (getResponseHeaders isErr isAlb env) "Content-Type" =
      if isErr then some (HVal.str "application/json") else none := by
  cases isErr <;> cases isAlb <;>
    by_cases hc : (env.CORS_ENABLED == some "Yes") = true <;>
    simp [getResponseHeaders, hc, setH, getH]

theorem errorBranch_headers (env : Env) (isAlb : Bool) (err : JsError) :
    (errorBranchResponse env isAlb err).headers = getResponseHeaders true isAlb env := by
  unfold errorBranchResponse internalErrorResponse
  by_cases h : jsTruthyNat err.status = true <;> simp [h]

theorem metaOverlay_other (req : ProcessedRequest) (h : HeaderMap) (k : String)
    (h1 : ¬(k = "Content-Type")) (h2 : ¬(k = "Expires"))
    (h3 : ¬(k = "Last-Modified")) (h4 : ¬(k = "Cache-Control")) :
    getH (metaOverlay req h) k = getH h k := by
  unfold metaOverlay
  rw [getH_setH_ne _ _ _ _ (fun hh => h4 hh.symm),
      getH_setH_ne _ _ _ _ (fun hh => h3 hh.symm),
      getH_setH_ne _ _ _ _ (fun hh => h2 hh.symm),
      getH_setH_ne _ _ _ _ (fun hh => h1 hh.symm)]

theorem customOverlay_notmem (req : ProcessedRequest) (h : HeaderMap) (k : String)
    (hk : ¬(k ∈ customKeys req)) :
    getH (customOverlay req h) k = getH h k := by
  unfold customOverlay
  cases hh : req.headers with
  | none => rfl
  | some hs =>
      refine getH_foldl_notmem hs h k (fun p hp hpk => hk ?_)
      simp only [customKeys, hh]
      exact hpk ▸ List.mem_map_of_mem Prod.fst hp

theorem customOverlay_mem (req : ProcessedRequest) (h : HeaderMap) (k : String) (v : HVal)
    (hs : List (String × HVal)) (hh : req.headers = some hs)
    (hnd : (hs.map Prod.fst).Nodup) (hmem : (k, v) ∈ hs) :
    getH (customOverlay req h) k = some v := by
  unfold customOverlay
  rw [hh]
  exact getH_foldl_mem hs h k v hnd hmem

theorem success_headers_other (env : Env) (isAlb : Bool) (req : ProcessedRequest)
    (body : String) (k : String)
    (h1 : ¬(k = "Content-Type")) (h2 : ¬(k = "Expires"))
    (h3 : ¬(k = "Last-Modified")) (h4 : ¬(k = "Cache-Control"))
    (hk : ¬(k ∈ customKeys req)) :
    getH (successResponse env isAlb req body).headers k =
      getH (getResponseHeaders false isAlb env) k := by
  unfold successResponse
  simp only
  rw [customOverlay_notmem req _ k hk, metaOverlay_other req _ k h1 h2 h3 h4]

theorem fallback_headers_other (env : Env) (isAlb : Bool) (err : JsError) (obj : S3Obj)
    (k : String) (h1 : ¬(k = "Content-Type")) (h3 : ¬(k = "Last-Modified"))
    (h4 : ¬(k = "Cache-Control")) :
    getH (fallbackImageResponse env isAlb err obj).headers k =
      getH (getResponseHeaders false isAlb env) k := by
  unfold fallbackImageResponse
  simp only
  rw [getH_setH_ne _ _ _ _ (fun hh => h4 hh.symm),
      getH_setH_ne _ _ _ _ (fun hh => h3 hh.symm),
      getH_setH_ne _ _ _ _ (fun hh => h1 hh.symm)]

theorem fallback_headers_ct (env : Env) (isAlb : Bool) (err : JsError) (obj : S3Obj) :
    getH (fallbackImageResponse env isAlb err obj).headers "Content-Type" =
      some (optHVal obj.ContentType) := by
  unfold fallbackImageResponse
  simp only
  rw [getH_setH_ne _ _ _ _ (by decide), getH_setH_ne _ _ _ _ (by decide), getH_setH_self]

theorem metaOverlay_metaVal (req : ProcessedRequest) (h : HeaderMap) (k : String) (v : HVal)
    (hv : metaVal req k = some v) :
    getH (metaOverlay req h) k = some v := by
  unfold metaVal at hv
  unfold metaOverlay
  by_cases h1 : k = "Content-Type"
  · subst h1
    simp at hv
    rw [getH_setH_ne _ _ _ _ (by decide), getH_setH_ne _ _ _ _ (by decide),
        getH_setH_ne _ _ _ _ (by decide), getH_setH_self]
    rw [hv]
  by_cases h2 : k = "Expires"
  · subst h2
    simp at hv
    rw [getH_setH_ne _ _ _ _ (by decide), getH_setH_ne _ _ _ _ (by decide), getH_setH_self]
    rw [hv]
  by_cases h3 : k = "Last-Modified"
  · subst h3
    simp at hv
    rw [getH_setH_ne _ _ _ _ (by decide), getH_setH_self]
    rw [hv]
  by_cases h4 : k = "Cache-Control"
  · subst h4
    simp at hv
    rw [getH_setH_self, hv]
  · simp [h1, h2, h3, h4] at hv

theorem fallback_headers_lm (env : Env) (isAlb : Bool) (err : JsError) (obj : S3Obj) :
    getH (fallbackImageResponse env isAlb err obj).headers "Last-Modified" =
      some (optHVal obj.LastModified) := by
  unfold fallbackImageResponse
  simp only
  rw [getH_setH_ne _ _ _ _ (by decide), getH_setH_self]

theorem fallback_headers_cc (env : Env) (isAlb : Bool) (err : JsError) (obj : S3Obj) :
    getH (fallbackImageResponse env isAlb err obj).headers "Cache-Control" =
      some (HVal.str "max-age=31536000,public") := by
  unfold fallbackImageResponse
  simp only
  rw [getH_setH_self]

theorem invokeStep_truthy (env : Env) (s : String) (hs : ¬(s = ""))
    (inv : Event × Outcomes) :
    (invokeStep env (some s) inv).2 = some s := by
  unfold invokeStep handler ensureSecretKeyLoaded
  simp [truthyStr, hs]

theorem runCache_truthy (env : Env) (s : String) (hs : ¬(s = "")) :
    ∀ invs, runCache env (some s) invs = some s := by
  intro invs
  induction invs with
  | nil => rfl
  | cons inv rest ih =>
      simp only [runCache]
      rw [invokeStep_truthy env s hs inv]
      exact ih

/-- Claim C1, amended: whenever the secret-load step resolves, the handler
terminates by returning an HTTP response, containing every parsing,
processing, and fallback failure; but a secret-load failure itself
propagates out of the handler uncaught (it is not routed through the
classified/unclassified JSON error path), because ensureSecretKeyLoaded is
awaited outside the try/catch block. -/
theorem C1_termination (env : Env) (ev : Event) (cache : Option String) (out : Outcomes) :
    (∀ c, ensureSecretKeyLoaded env cache out.secretFetch = Except.ok c →
        handler env ev cache out = Except.ok (handlerBody env ev out, c))
    ∧ (∀ e, ensureSecretKeyLoaded env cache out.secretFetch = Except.error e →
        handler env ev cache out = Except.error e) := by
  constructor
  · intro c hc
    unfold handler
    rw [hc]
  · intro e he
    unfold handler
    rw [he]

/-- Claim C1 counterexample: with signing enabled, an empty cache, and a
failing secret fetch, the invocation ends in a thrown error instead of an
HTTP response, so a failure escapes the handler uncaught. -/
theorem C1_counterexample :
    handler { env0 with ENABLE_SIGNATURE := some "Yes", PS_PARAMETER_NAME := some "sk" }
        ev0 none outSecretFail = Except.error errNoStatus := rfl

/-- Claim C1 witness: a concrete invocation whose secret-load step
succeeds (signing disabled) returns an HTTP response. -/
theorem C1_witness :
    handler env0 ev0 none outSecretFail
      = Except.ok (handlerBody env0 ev0 outSecretFail, none) :=
  (C1_termination env0 ev0 none outSecretFail).1 none rfl

/-- Claim C2, amended: the fallback fetch is attempted exactly when the
enable flag is the string Yes and both the bucket and the key env var are
nonempty and remain nonempty after removal of their FIRST whitespace
character only (the source regex /\s/ has no g flag), so a value of two or
more whitespace characters passes the guard; when the guard fails, the
response is the direct classified/internal error response for every
fallback fetch outcome. -/
theorem C2_fallback_guard (env : Env) (ev : Event) (out : Outcomes) (err : JsError)
    (hfail : tryResult out = Except.error err) :
    (fallbackConfigured env = false →
        handlerBody env ev out = errorBranchResponse env (eventIsAlb ev) err)
    ∧ (fallbackConfigured env = true → ∀ obj, out.fallbackFetch = Except.ok obj →
        handlerBody env ev out = fallbackImageResponse env (eventIsAlb ev) err obj)
    ∧ (fallbackConfigured env = true ↔
        (env.ENABLE_DEFAULT_FALLBACK_IMAGE = some "Yes"
         ∧ (∃ b, env.DEFAULT_FALLBACK_IMAGE_BUCKET = some b
              ∧ ¬(b = "") ∧ ¬(replaceFirstWsStr b = ""))
         ∧ (∃ kk, env.DEFAULT_FALLBACK_IMAGE_KEY = some kk
              ∧ ¬(kk = "") ∧ ¬(replaceFirstWsStr kk = "")))) := by
  refine ⟨?_, ?_, ?_⟩
  · intro hcfg
    unfold handlerBody
    simp [hfail, hcfg]
  · intro hcfg obj hfetch
    unfold handlerBody
    simp [hfail, hcfg, hfetch]
  · unfold fallbackConfigured
    cases hb : env.DEFAULT_FALLBACK_IMAGE_BUCKET <;>
      cases hk : env.DEFAULT_FALLBACK_IMAGE_KEY <;>
      simp [Bool.and_eq_true, beq_iff_eq, and_assoc]

/-- Claim C2 counterexample: the fallback bucket consists only of
whitespace (two spaces), which the claim as stated says must skip the
fallback fetch; yet the code attempts the fetch and answers with the
fallback image response rather than the classified error response. -/
theorem C2_counterexample :
    handlerBody envWsBucket ev0 outFbHit
        = fallbackImageResponse envWsBucket false err404 objFb
    ∧ ¬(handlerBody envWsBucket ev0 outFbHit
        = errorBranchResponse envWsBucket false err404) := by
  exact ⟨rfl, by decide⟩

/-- Claim C2 witness: with no fallback configuration the failing
invocation proceeds directly to the classified error response. -/
theorem C2_witness :
    handlerBody env0 ev0 outFbHit = errorBranchResponse env0 (eventIsAlb ev0) err404 :=
  (C2_fallback_guard env0 ev0 outFbHit err404 rfl).1 rfl

/-- Claim C3: in the terminal error branch, a failure carrying an explicit
status is echoed with that status, error-mode headers, and its own
serialization as JSON body; a failure with no status yields exactly the
fixed status-500 internal-error response. A literal status 0 is excluded
from the first part: the code tests JS truthiness, so 0 would take the 500
branch, and 0 is not an HTTP status code. -/
theorem C3_error_classification (env : Env) (ev : Event) (out : Outcomes) (err : JsError)
    (hfail : tryResult out = Except.error err)
    (hnofb : fallbackConfigured env = false ∨ ∃ e2, out.fallbackFetch = Except.error e2) :
    (∀ s, err.status = some s → ¬(s = 0) →
        handlerBody env ev out =
          { statusCode := s, isBase64Encoded := false,
            headers := getResponseHeaders true (eventIsAlb ev) env,
            body := err.serialized })
    ∧ (err.status = none →
        handlerBody env ev out =
          { statusCode := 500, isBase64Encoded := false,
            headers := getResponseHeaders true (eventIsAlb ev) env,
            body := "\x7b\"message\":\"Internal error. Please contact the system administrator.\",\"code\":\"InternalError\",\"status\":500\x7d" }) := by
  have hbody : handlerBody env ev out = errorBranchResponse env (eventIsAlb ev) err := by
    unfold handlerBody
    rcases hnofb with hcfg | ⟨e2, hfb⟩
    · simp [hfail, hcfg]
    · cases hcfg2 : fallbackConfigured env
      · simp [hfail, hcfg2]
      · simp [hfail, hcfg2, hfb]
  constructor
  · intro s hs hs0
    rw [hbody]
    unfold errorBranchResponse
    rw [hs]
    simp [jsTruthyNat, hs0]
  · intro hs
    rw [hbody]
    unfold errorBranchResponse internalErrorResponse
    rw [hs]
    simp [jsTruthyNat, internalErrorBody]

/-- Claim C3 witness: a concrete status-404 failure with no usable
fallback is echoed as a 404 JSON error response. -/
theorem C3_witness :
    handlerBody env0 ev0 outFbFail =
      { statusCode := 404, isBase64Encoded := false,
        headers := getResponseHeaders true (eventIsAlb ev0) env0,
        body := err404.serialized } :=
  (C3_error_classification env0 ev0 outFbFail err404 rfl
    (Or.inr ⟨errNoStatus, rfl⟩)).1 404 rfl (by decide)

/-- Claim C4: the secret cache is written at most once per process.
ensureSecretKeyLoaded is a no-op when signing is disabled, returns at once
without fetching when the cache already holds a truthy value, and
propagates a fetch failure leaving the cache empty; hence over every
sequence of invocations in one process, a cached secret, once set to a
nonempty value, is never reloaded or mutated. -/
theorem C4_secret_cache (env : Env) :
    (∀ cache fetch, ¬(env.ENABLE_SIGNATURE = some "Yes") →
        ensureSecretKeyLoaded env cache fetch = Except.ok cache)
    ∧ (∀ s fetch, ¬(s = "") →
        ensureSecretKeyLoaded env (some s) fetch = Except.ok (some s))
    ∧ (∀ ev out e, env.ENABLE_SIGNATURE = some "Yes" → out.secretFetch = Except.error e →
        invokeStep env none (ev, out) = (Except.error e, none))
    ∧ (∀ s invs, ¬(s = "") → runCache env (some s) invs = some s) := by
  refine ⟨?_, ?_, ?_, ?_⟩
  · intro cache fetch hsig
    unfold ensureSecretKeyLoaded
    cases h : truthyStr cache <;> simp [h, hsig]
  · intro s fetch hs
    unfold ensureSecretKeyLoaded
    simp [truthyStr, hs]
  · intro ev out e hsig hfetch
    unfold invokeStep handler ensureSecretKeyLoaded
    simp [truthyStr, hsig, hfetch]
  · intro s invs hs
    exact runCache_truthy env s hs invs

/-- Claim C4 witness: a cached nonempty secret survives an invocation
whose secret fetch would fail. -/
theorem C4_witness :
    runCache envSig (some "s3cret") [(ev0, outSecretFail)] = some "s3cret" :=
  (C4_secret_cache envSig).2.2.2 "s3cret" [(ev0, outSecretFail)] (by decide)

/-- Claim C5: success-path header overlay order is fixed as composed
headers, then the Content-Type/Expires/Last-Modified/Cache-Control
metadata of the Processed Request, then its custom headers last: a custom
binding wins every conflict, a metadata key not custom-bound wins over the
composed value, and any other key keeps its composed value. -/
theorem C5_header_overlay_order (env : Env) (isAlb : Bool) (req : ProcessedRequest)
    (body : String) (k : String) :
    (∀ hs v, req.headers = some hs → (hs.map Prod.fst).Nodup → (k, v) ∈ hs →
        getH (successResponse env isAlb req body).headers k = some v)
    ∧ (∀ v, ¬(k ∈ customKeys req) → metaVal req k = some v →
        getH (successResponse env isAlb req body).headers k = some v)
    ∧ (¬(k ∈ customKeys req) → metaVal req k = none →
        getH (successResponse env isAlb req body).headers k =
          getH (getResponseHeaders false isAlb env) k) := by
  refine ⟨?_, ?_, ?_⟩
  · intro hs v hh hnd hmem
    unfold successResponse
    simp only
    exact customOverlay_mem req _ k v hs hh hnd hmem
  · intro v hk hv
    unfold successResponse
    simp only
    rw [customOverlay_notmem req _ k hk]
    exact metaOverlay_metaVal req _ k v hv
  · intro hk hv
    have h1 : ¬(k = "Content-Type") := by
      intro he; subst he; simp [metaVal] at hv
    have h2 : ¬(k = "Expires") := by
      intro he; subst he; simp [metaVal] at hv
    have h3 : ¬(k = "Last-Modified") := by
      intro he; subst he; simp [metaVal] at hv
    have h4 : ¬(k = "Cache-Control") := by
      intro he; subst he; simp [metaVal] at hv
    exact success_headers_other env isAlb req body k h1 h2 h3 h4 hk

/-- Claim C5 witness: a custom Content-Type bar overrides the metadata
Content-Type baz of the same Processed Request. -/
theorem C5_witness :
    getH (successResponse env0 false reqCustomCT "Qm9k").headers "Content-Type"
      = some (HVal.str "bar") :=
  (C5_header_overlay_order env0 false reqCustomCT "Qm9k" "Content-Type").1
    [("Content-Type", HVal.str "bar")] (HVal.str "bar") rfl (by decide) (by decide)

/-- Claim C6: when the try block fails, the fallback is configured, and
the storage fetch succeeds, the response carries the original explicit
status (else 500), the base64 encoding of the fetched bytes as body,
error-mode-false composed headers (CORS headers still applied) with
Content-Type and Last-Modified from the fetched object, and Cache-Control
forced to max-age=31536000,public. A literal status 0 is excluded as in
claim C3. -/
theorem C6_fallback_response (env : Env) (ev : Event) (out : Outcomes) (err : JsError)
    (obj : S3Obj)
    (hfail : tryResult out = Except.error err)
    (hcfg : fallbackConfigured env = true)
    (hfetch : out.fallbackFetch = Except.ok obj) :
    handlerBody env ev out = fallbackImageResponse env (eventIsAlb ev) err obj
    ∧ (∀ s, err.status = some s → ¬(s = 0) → (handlerBody env ev out).statusCode = s)
    ∧ (err.status = none → (handlerBody env ev out).statusCode = 500)
    ∧ (handlerBody env ev out).body = base64Encode obj.Body
    ∧ (handlerBody env ev out).isBase64Encoded = true
    ∧ getH (handlerBody env ev out).headers "Cache-Control"
        = some (HVal.str "max-age=31536000,public")
    ∧ getH (handlerBody env ev out).headers "Content-Type" = some (optHVal obj.ContentType)
    ∧ getH (handlerBody env ev out).headers "Last-Modified" = some (optHVal obj.LastModified)
    ∧ (∀ k, ¬(k = "Content-Type") → ¬(k = "Last-Modified") → ¬(k = "Cache-Control") →
        getH (handlerBody env ev out).headers k =
          getH (getResponseHeaders false (eventIsAlb ev) env) k) := by
  have hbody : handlerBody env ev out = fallbackImageResponse env (eventIsAlb ev) err obj := by
    unfold handlerBody
    simp [hfail, hcfg, hfetch]
  refine ⟨hbody, ?_, ?_, ?_, ?_, ?_, ?_, ?_, ?_⟩
  · intro s hs hs0
    rw [hbody]
    unfold fallbackImageResponse
    rw [hs]
    simp [jsTruthyNat, hs0]
  · intro hs
    rw [hbody]
    unfold fallbackImageResponse
    rw [hs]
    simp [jsTruthyNat]
  · rw [hbody]; rfl
  · rw [hbody]; rfl
  · rw [hbody]; exact fallback_headers_cc env (eventIsAlb ev) err obj
  · rw [hbody]; exact fallback_headers_ct env (eventIsAlb ev) err obj
  · rw [hbody]; exact fallback_headers_lm env (eventIsAlb ev) err obj
  · intro k h1 h3 h4
    rw [hbody]
    exact fallback_headers_other env (eventIsAlb ev) err obj k h1 h3 h4

/-- Claim C6 witness: a concrete 404 failure with configured fallback and
successful fetch yields the status-404 fallback image response. -/
theorem C6_witness :
    handlerBody envFbOn ev0 outFbHit
        = fallbackImageResponse envFbOn (eventIsAlb ev0) err404 objFb
    ∧ (handlerBody envFbOn ev0 outFbHit).statusCode = 404 := by
  have h := C6_fallback_response envFbOn ev0 outFbHit err404 objFb rfl rfl rfl
  exact ⟨h.1, h.2.1 404 rfl (by decide)⟩

/-- Claim C7: composing headers in error mode always yields Content-Type
application/json, for every environment and ingress type, and both
terminal error responses use exactly that composed map, so nothing in the
error path overlays or removes the header afterwards. -/
theorem C7_error_mode_content_type (env : Env) (isAlb : Bool) (err : JsError) :
    getH (getResponseHeaders true isAlb env) "Content-Type"
        = some (HVal.str "application/json")
    ∧ (errorBranchResponse env isAlb err).headers = getResponseHeaders true isAlb env := by
  refine ⟨?_, errorBranch_headers env isAlb err⟩
  have h := getRespH_ctype true isAlb env
  simpa using h

/-- Claim C8, amended: the composed header set contains
Access-Control-Allow-Credentials (set to true) exactly when the invocation
is not ALB-origin, and the error response, the fallback response, and any
success response whose custom headers do not bind the key agree with it;
but a success response whose Processed Request custom headers bind the key
carries the custom value instead, on ALB and non-ALB invocations alike. -/
theorem C8_credentials (env : Env) (isErr isAlb : Bool) (err : JsError) (obj : S3Obj)
    (req : ProcessedRequest) (body : String) :
    (getH (getResponseHeaders isErr isAlb env) "Access-Control-Allow-Credentials" =
        if isAlb then none else some (HVal.bool true))
    ∧ (getH (errorBranchResponse env isAlb err).headers "Access-Control-Allow-Credentials" =
        if isAlb then none else some (HVal.bool true))
    ∧ (getH (fallbackImageResponse env isAlb err obj).headers "Access-Control-Allow-Credentials" =
        if isAlb then none else some (HVal.bool true))
    ∧ (¬("Access-Control-Allow-Credentials" ∈ customKeys req) →
        getH (successResponse env isAlb req body).headers "Access-Control-Allow-Credentials" =
          if isAlb then none else some (HVal.bool true))
    ∧ (∀ hs v, req.headers = some hs → (hs.map Prod.fst).Nodup →
        ("Access-Control-Allow-Credentials", v) ∈ hs →
        getH (successResponse env isAlb req body).headers "Access-Control-Allow-Credentials"
          = some v) := by
  refine ⟨getRespH_cred isErr isAlb env, ?_, ?_, ?_, ?_⟩
  · rw [errorBranch_headers env isAlb err]
    exact getRespH_cred true isAlb env
  · rw [fallback_headers_other env isAlb err obj _ (by decide) (by decide) (by decide)]
    exact getRespH_cred false isAlb env
  · intro hk
    rw [success_headers_other env isAlb req body _ (by decide) (by decide) (by decide) (by decide) hk]
    exact getRespH_cred false isAlb env
  · intro hs v hh hnd hmem
    unfold successResponse
    simp only
    exact customOverlay_mem req _ _ v hs hh hnd hmem

/-- Claim C8 counterexample: an ALB-origin success invocation whose
Processed Request custom headers bind Access-Control-Allow-Credentials;
the claim says the header is absent from every ALB response, yet here it
is present. -/
theorem C8_counterexample :
    eventIsAlb evAlb = true
    ∧ getH (handlerBody env0 evAlb outCred).headers "Access-Control-Allow-Credentials"
        = some (HVal.bool true) := ⟨rfl, rfl⟩

/-- Claim C8 witness: an ALB success response with no custom headers omits
the credentials header. -/
theorem C8_witness :
    getH (successResponse env0 true req0 "Zm9v").headers "Access-Control-Allow-Credentials"
      = none :=
  (C8_credentials env0 false true errNoStatus objFb req0 "Zm9v").2.2.2.1 (by decide)

/-- Claim C9: the Access-Control-Allow-Origin header appears in the
composed headers exactly when CORS_ENABLED is Yes, with the configured
origin as value, for the composed set of every mode (success, error) and
ingress type, and for the error and fallback responses built from it. -/
theorem C9_cors_origin (env : Env) (isErr isAlb : Bool) (err : JsError) (obj : S3Obj) :
    (getH (getResponseHeaders isErr isAlb env) "Access-Control-Allow-Origin" =
        if env.CORS_ENABLED == some "Yes" then some (optHVal env.CORS_ORIGIN) else none)
    ∧ (getH (errorBranchResponse env isAlb err).headers "Access-Control-Allow-Origin" =
        if env.CORS_ENABLED == some "Yes" then some (optHVal env.CORS_ORIGIN) else none)
    ∧ (getH (fallbackImageResponse env isAlb err obj).headers "Access-Control-Allow-Origin" =
        if env.CORS_ENABLED == some "Yes" then some (optHVal env.CORS_ORIGIN) else none) := by
  refine ⟨getRespH_origin isErr isAlb env, ?_, ?_⟩
  · rw [errorBranch_headers env isAlb err]
    exact getRespH_origin true isAlb env
  · rw [fallback_headers_other env isAlb err obj _ (by decide) (by decide) (by decide)]
    exact getRespH_origin false isAlb env

/-- Claim C10: the returned isBase64Encoded flag is true exactly on the
two image-bearing branches, the success of the try block and the
successful fallback fetch of a configured fallback, and false on both JSON
error branches, the classified and the internal one. -/
theorem C10_isBase64Encoded (env : Env) (ev : Event) (out : Outcomes) :
    (handlerBody env ev out).isBase64Encoded =
      (exceptOk (tryResult out) || (fallbackConfigured env && exceptOk out.fallbackFetch)) := by
  unfold handlerBody
  cases htry : tryResult out with
  | ok p =>
      obtain ⟨req, body⟩ := p
      simp [exceptOk, successResponse]
  | error err =>
      cases hcfg : fallbackConfigured env with
      | false =>
          cases h : jsTruthyNat err.status <;>
            simp [exceptOk, errorBranchResponse, internalErrorResponse, h]
      | true =>
          cases hfb : out.fallbackFetch with
          | ok obj => simp [exceptOk, fallbackImageResponse]
          | error e =>
              cases h : jsTruthyNat err.status <;>
                simp [exceptOk, errorBranchResponse, internalErrorResponse, h]
